import Mathlib

/-!
Shallow embedding of the core of the my-expenses-graphql service:
the Expense and Category domain entities, the Prisma-backed repositories,
and the monthly-report resolver.  Definitions are translated from the
TypeScript source; theorems check the specified properties against them.

Conventions of the embedding:
- Monetary amounts (JS numbers fed from Postgres DECIMAL values) are
  modelled as exact rationals.
- A JS Date instant is modelled by its civil components in the fixed
  server timezone (year, month 1-12, day, hour, minute, second,
  millisecond); TIMESTAMP(3) columns have millisecond precision.
- Nondeterministic runtime inputs (crypto.randomUUID, new Date()) are
  passed as explicit parameters.
- A thrown JS Error is an Except.error carrying the message string.
-/

/-- Model of a JS Date instant: civil components in the server timezone. -/
structure Date where
  year : Int
  month : Int
  day : Int
  hour : Int
  minute : Int
  second : Int
  ms : Int
deriving DecidableEq, Repr

/-- Gregorian leap-year rule used by JS Date. -/
def isLeapYear (y : Int) : Bool :=
  y % 4 == 0 && (y % 100 != 0 || y % 400 == 0)

/-- Number of days in a given month (1-12) of a given year. -/
def daysInMonth (y m : Int) : Int :=
  if m = 2 then (if isLeapYear y then 29 else 28)
  else if m = 4 ∨ m = 6 ∨ m = 9 ∨ m = 11 then 30
  else 31

/-- Valid civil components: the datetimes that denote real instants. -/
def Date.Valid (d : Date) : Prop :=
  1 ≤ d.month ∧ d.month ≤ 12 ∧
  1 ≤ d.day ∧ d.day ≤ daysInMonth d.year d.month ∧
  0 ≤ d.hour ∧ d.hour ≤ 23 ∧
  0 ≤ d.minute ∧ d.minute ≤ 59 ∧
  0 ≤ d.second ∧ d.second ≤ 59 ∧
  0 ≤ d.ms ∧ d.ms ≤ 999

instance (d : Date) : Decidable d.Valid := by
  unfold Date.Valid; infer_instance

/-- Order-faithful timestamp of a civil datetime.  Each coefficient
strictly bounds the range of the component to its right, so on valid
datetimes `key` is monotone in the lexicographic civil order, which is
exactly the instant order JS Date comparison and the SQL TIMESTAMP
comparison use (for a fixed timezone). -/
def Date.key (d : Date) : Int :=
  (((((d.year * 13 + d.month) * 32 + d.day) * 24 + d.hour) * 60
      + d.minute) * 60 + d.second) * 1000 + d.ms

theorem daysInMonth_bounds (y m : Int) :
    28 ≤ daysInMonth y m ∧ daysInMonth y m ≤ 31 := by
  unfold daysInMonth
  split_ifs <;> simp

/-- Whitespace per the ECMAScript definition used by String.prototype.trim:
TAB, LF, VT, FF, CR, space, NBSP, BOM, and the Unicode space separators. -/
def jsWhitespace (c : Char) : Bool :=
  c == ' ' || c == '\t' || c == '\n' || c == '\r' ||
  c == '\x0B' || c == '\x0C' || c == '\u00A0' || c == '\uFEFF' ||
  c == '\u1680' || ('\u2000' <= c && c <= '\u200A') || c == '\u2028' ||
  c == '\u2029' || c == '\u202F' || c == '\u205F' || c == '\u3000'

/-- Model of the JS String.prototype.trim method: removes leading and
trailing whitespace. -/
def jsTrim (s : String) : String :=
  ⟨((s.data.dropWhile jsWhitespace).reverse.dropWhile jsWhitespace).reverse⟩

/-- The Expense domain entity (src/domain/entities/Expense.ts). -/
structure Expense where
  id : String
  description : String
  amount : ℚ
  date : Date
  categoryId : String
  createdAt : Date
  updatedAt : Option Date
deriving DecidableEq, Repr

/-- Embedding of Expense.create.  The id freshly generated by
crypto.randomUUID and the current time produced by new Date() are passed
in as freshId and now. -/
def Expense.create (freshId : String) (now : Date) (description : String)
    (amount : ℚ) (date : Date) (categoryId : String) : Except String Expense :=
  if description = "" ∨ (jsTrim description).length = 0 then
    .error "Description cannot be empty"
  else if amount ≤ 0 then
    .error "Amount must be positive"
  else
    .ok ⟨freshId, description, amount, date, categoryId, now, none⟩

/-- Embedding of Expense.fromDatabase: trusted rehydration, no validation. -/
def Expense.fromDatabase (id : String) (description : String) (amount : ℚ)
    (date : Date) (categoryId : String) (createdAt : Date)
    (updatedAt : Option Date) : Expense :=
  ⟨id, description, amount, date, categoryId, createdAt, updatedAt⟩

/-- Embedding of Expense.update: the in-place mutation is modelled as
returning the mutated record; new Date() is passed in as now. -/
def Expense.update (e : Expense) (now : Date) (description : String)
    (amount : ℚ) (date : Date) (categoryId : String) : Expense :=
  { e with description := description, amount := amount, date := date,
           categoryId := categoryId, updatedAt := some now }

/-- Shape of the plain record produced by Expense.toJSON. -/
structure ExpenseJson where
  id : String
  description : String
  amount : ℚ
  date : Date
  categoryId : String
  createdAt : Date
  updatedAt : Option Date
deriving DecidableEq, Repr

/-- Embedding of Expense.toJSON. -/
def Expense.toJSON (e : Expense) : ExpenseJson :=
  ⟨e.id, e.description, e.amount, e.date, e.categoryId, e.createdAt, e.updatedAt⟩

/-- The Category domain entity (src/domain/entities/Category.ts).
description is string-or-null in the source, modelled as Option String. -/
structure Category where
  id : String
  name : String
  description : Option String
  color : String
deriving DecidableEq, Repr

/-- Embedding of Category.create.  The color parameter is the JS string
argument, with none standing for an absent (undefined/null) value; the
source expression color || #000000 maps every falsy color (absent or
the empty string) to the default. -/
def Category.create (freshId : String) (name : String)
    (description : Option String) (color : Option String) :
    Except String Category :=
  if name = "" ∨ (jsTrim name).length = 0 then
    .error "Category name cannot be empty"
  else
    .ok ⟨freshId, name, description,
         match color with
         | none => "#000000"
         | some c => if c = "" then "#000000" else c⟩

/-- Embedding of Category.fromDatabase: trusted rehydration. -/
def Category.fromDatabase (id : String) (name : String)
    (description : Option String) (color : String) : Category :=
  ⟨id, name, description, color⟩

/-- A row of the expenses table as returned by the Prisma client; the
DECIMAL(18,2) amount is modelled as an exact rational. -/
structure ExpenseRow where
  id : String
  description : String
  amount : ℚ
  date : Date
  categoryId : String
  createdAt : Date
  updatedAt : Option Date
deriving DecidableEq, Repr

/-- The relational store visible to the repositories: the categories and
expenses tables. -/
structure Db where
  categories : List Category
  expenses : List ExpenseRow
deriving DecidableEq, Repr

/-- Newest-first comparison used to model orderBy date desc. -/
def newestFirst (a b : ExpenseRow) : Prop :=
  b.date.key ≤ a.date.key

instance : DecidableRel newestFirst := by
  unfold newestFirst; infer_instance

instance : IsTotal ExpenseRow newestFirst :=
  ⟨fun a b => le_total b.date.key a.date.key⟩

instance : IsTrans ExpenseRow newestFirst :=
  ⟨fun _ _ _ h1 h2 => le_trans h2 h1⟩

/-- The ECMAScript two-digit-year remap of the Date constructor
(MakeFullYear): a year argument from 0 through 99 denotes 1900 + year;
every other year is taken as given. -/
def jsFullYear (y : Int) : Int :=
  if 0 ≤ y ∧ y ≤ 99 then 1900 + y else y

/-- Embedding of ExpenseRepository.findByMonthAndYear.  The source builds
startDate = new Date(year, month - 1, 1) (the JS constructor takes a
0-indexed month, so this is day 1 of the 1-indexed month, and applies the
jsFullYear remap to the year argument) and
endDate = new Date(year, month, 0, 23, 59, 59, 999) (day 0 of the next
month normalizes to the last day of the month of the remapped year,
daysInMonth (jsFullYear year) month), then queries rows with
startDate <= date <= endDate ordered by date descending and rehydrates
each row through Expense.fromDatabase. -/
def ExpenseRepository.findByMonthAndYear (db : Db) (month year : Int) :
    List Expense :=
  let startDate : Date := ⟨jsFullYear year, month, 1, 0, 0, 0, 0⟩
  let endDate : Date := ⟨jsFullYear year, month,
    daysInMonth (jsFullYear year) month, 23, 59, 59, 999⟩
  let rows := db.expenses.filter fun e =>
    decide (startDate.key ≤ e.date.key) && decide (e.date.key ≤ endDate.key)
  (rows.insertionSort newestFirst).map fun e =>
    Expense.fromDatabase e.id e.description e.amount e.date e.categoryId
      e.createdAt e.updatedAt

/-- Embedding of CategoryRepository.delete.  The source first counts the
expenses referencing the category and throws if any exist; otherwise it
issues prisma.category.delete, which itself throws if no such record
exists.  An error leaves the store untouched (the model only produces a
new store on success). -/
def CategoryRepository.delete (db : Db) (id : String) : Except String Db :=
  let expenseCount := (db.expenses.filter fun e => e.categoryId = id).length
  if expenseCount > 0 then
    .error ("Cannot delete category: " ++ toString expenseCount ++
            " expense(s) are associated with this category")
  else if db.categories.all fun c => c.id ≠ id then
    .error "Record to delete does not exist"
  else
    .ok { db with categories := db.categories.filter fun c => c.id ≠ id }

/-- The raw input object of the createCategory mutation. -/
structure CategoryCreateInput where
  name : String
  description : Option String
  color : String
deriving DecidableEq, Repr

/-- Embedding of CategoryRepository.create: forwards the given fields
verbatim to prisma.category.create and rehydrates the created row.  The
row id generated by the store is passed in as freshId; the UNIQUE index
on categories.name (prisma/migrations) makes the insert throw when the
name is already taken. -/
def CategoryRepository.create (db : Db) (freshId : String)
    (data : CategoryCreateInput) : Except String (Category × Db) :=
  if db.categories.any fun c => c.name = data.name then
    .error "Unique constraint failed on the fields: (name)"
  else
    let row : Category := ⟨freshId, data.name, data.description, data.color⟩
    .ok (Category.fromDatabase row.id row.name row.description row.color,
         { db with categories := db.categories ++ [row] })

/-- Embedding of the createCategory mutation resolver: it hands the raw
input object directly to categoryRepository.create, never invoking the
Category.create factory. -/
def createCategory (db : Db) (freshId : String)
    (input : CategoryCreateInput) : Except String (Category × Db) :=
  CategoryRepository.create db freshId input

/-- An additional-income line item of the monthly report query. -/
structure AdditionalIncome where
  description : String
  amount : ℚ
deriving DecidableEq, Repr

/-- The object returned by the expensesMonthlyReport resolver.  The Lean
field names are exactly the property names of the object literal in the
source: the month name is returned under the property named month. -/
structure MonthlyReport where
  month : String
  year : Int
  salary : ℚ
  additionalIncome : List AdditionalIncome
  totalExpenses : ℚ
  netIncome : ℚ
  expenses : List Expense
deriving DecidableEq, Repr

/-- Property names of the object literal returned by the
expensesMonthlyReport resolver, in source order. -/
def MonthlyReport.jsKeys : List String :=
  ["month", "year", "salary", "additionalIncome", "totalExpenses",
   "netIncome", "expenses"]

/-- The MONTH_NAMES array of the resolver module. -/
def MONTH_NAMES : List String :=
  ["January", "February", "March", "April", "May", "June",
   "July", "August", "September", "October", "November", "December"]

/-- Embedding of the expensesMonthlyReport resolver (the wired variant in
expenseQueries.ts, which validates the month).  The expense list fetched
from expenseRepository.findByMonthAndYear is passed in as expenses; the
reduce accumulations are left folds from 0. -/
def expensesMonthlyReport (month year : Int) (salary : ℚ)
    (additionalIncome : List AdditionalIncome) (expenses : List Expense) :
    Except String MonthlyReport :=
  if month < 1 ∨ month > 12 then
    .error "Month must be between 1 and 12"
  else
    let totalExpenses := expenses.foldl (fun sum e => sum + e.amount) 0
    let totalAdditionalIncome :=
      additionalIncome.foldl (fun sum i => sum + i.amount) 0
    let netIncome := (salary + totalAdditionalIncome) - totalExpenses
    .ok ⟨MONTH_NAMES.getD ((month - 1).toNat) "", year, salary,
         additionalIncome, totalExpenses, netIncome, expenses⟩

/-- Month naming as the specification words it: 1 maps to January through
12 maps to December.  Stated separately from the source definition (which
indexes the MONTH_NAMES array) so the two can be compared. -/
def specMonthName (m : Int) : String :=
  if m = 1 then "January" else if m = 2 then "February"
  else if m = 3 then "March" else if m = 4 then "April"
  else if m = 5 then "May" else if m = 6 then "June"
  else if m = 7 then "July" else if m = 8 then "August"
  else if m = 9 then "September" else if m = 10 then "October"
  else if m = 11 then "November" else if m = 12 then "December"
  else ""

/-- A string has length zero exactly when it is the empty string. -/
theorem string_length_eq_zero_iff (t : String) : t.length = 0 ↔ t = "" := by
  rw [String.ext_iff]
  show t.data.length = 0 ↔ t.data = ("" : String).data
  rw [show ("" : String).data = [] from rfl]
  exact List.length_eq_zero

/-- The emptiness test used by the entity factories holds exactly when
the string trims to the empty string. -/
theorem blank_cond_iff (s : String) :
    (s = "" ∨ (jsTrim s).length = 0) ↔ jsTrim s = "" := by
  rw [string_length_eq_zero_iff]
  constructor
  · rintro (rfl | h)
    · rfl
    · exact h
  · exact fun h => Or.inr h

/-- C3: Expense.create throws a ValidationError exactly when the
description is empty or whitespace-only or the amount is nonpositive
(including zero); for every other input it returns a new Expense carrying
the given description, amount, date and categoryId, the freshly generated
identifier, a creation timestamp equal to the current time, and no update
timestamp.  The id produced by crypto.randomUUID and the current time are
the freshId and now parameters. -/
theorem Expense.create_spec (freshId : String) (now : Date)
    (description : String) (amount : ℚ) (date : Date) (categoryId : String) :
    ((∃ msg, Expense.create freshId now description amount date categoryId =
        .error msg) ↔ jsTrim description = "" ∨ amount ≤ 0) ∧
    (jsTrim description ≠ "" → 0 < amount →
      Expense.create freshId now description amount date categoryId =
        .ok ⟨freshId, description, amount, date, categoryId, now, none⟩) := by
  unfold Expense.create
  by_cases h1 : description = "" ∨ (jsTrim description).length = 0
  · rw [if_pos h1]
    have h2 : jsTrim description = "" := (blank_cond_iff description).mp h1
    exact ⟨by simp [h2], fun hne _ => absurd h2 hne⟩
  · rw [if_neg h1]
    have h2 : jsTrim description ≠ "" :=
      fun hh => h1 ((blank_cond_iff description).mpr hh)
    by_cases h3 : amount ≤ 0
    · rw [if_pos h3]
      exact ⟨by simp [h2, h3], fun _ hlt => absurd h3 (not_le.mpr hlt)⟩
    · rw [if_neg h3]
      exact ⟨by simp [h2, h3], fun _ _ => rfl⟩

/-- Witness for C3 at a concrete valid input. -/
theorem Expense.create_spec_witness :
    jsTrim "Lunch" ≠ "" ∧ (0 : ℚ) < 12 ∧
    Expense.create "uuid-1" ⟨2025, 3, 15, 12, 0, 0, 0⟩ "Lunch" 12
        ⟨2025, 3, 14, 9, 30, 0, 0⟩ "cat-1" =
      .ok ⟨"uuid-1", "Lunch", 12, ⟨2025, 3, 14, 9, 30, 0, 0⟩, "cat-1",
           ⟨2025, 3, 15, 12, 0, 0, 0⟩, none⟩ :=
  ⟨by decide, by decide,
   (Expense.create_spec "uuid-1" ⟨2025, 3, 15, 12, 0, 0, 0⟩ "Lunch" 12
       ⟨2025, 3, 14, 9, 30, 0, 0⟩ "cat-1").2 (by decide) (by decide)⟩

/-- C4: Expense.update replaces exactly the four fields description,
amount, date and categoryId, sets the update timestamp to the current
time, and leaves the identifier and the creation timestamp unchanged.
It is total: no validation of description or amount is performed, the
equations hold for every input, including empty descriptions and
nonpositive amounts. -/
theorem Expense.update_spec (e : Expense) (now : Date) (description : String)
    (amount : ℚ) (date : Date) (categoryId : String) :
    (e.update now description amount date categoryId).description =
        description ∧
    (e.update now description amount date categoryId).amount = amount ∧
    (e.update now description amount date categoryId).date = date ∧
    (e.update now description amount date categoryId).categoryId =
        categoryId ∧
    (e.update now description amount date categoryId).updatedAt = some now ∧
    (e.update now description amount date categoryId).id = e.id ∧
    (e.update now description amount date categoryId).createdAt =
        e.createdAt := by
  simp [Expense.update]

/-- C5: Category.create throws a ValidationError exactly when the name is
empty or whitespace-only; otherwise it returns a new Category with the
freshly generated identifier, the given name and description, and a color
defaulting to #000000 when the supplied color is falsy (absent or the
empty string) and equal to the supplied color otherwise. -/
theorem Category.create_defaults_spec (freshId name : String)
    (description : Option String) (color : Option String) :
    ((∃ msg, Category.create freshId name description color = .error msg) ↔
      jsTrim name = "") ∧
    (jsTrim name ≠ "" → (color = none ∨ color = some "") →
      Category.create freshId name description color =
        .ok ⟨freshId, name, description, "#000000"⟩) ∧
    (jsTrim name ≠ "" → ∀ c, color = some c → c ≠ "" →
      Category.create freshId name description color =
        .ok ⟨freshId, name, description, c⟩) := by
  unfold Category.create
  by_cases h1 : name = "" ∨ (jsTrim name).length = 0
  · rw [if_pos h1]
    have h2 : jsTrim name = "" := (blank_cond_iff name).mp h1
    exact ⟨by simp [h2], fun hne _ => absurd h2 hne,
           fun hne _ _ _ => absurd h2 hne⟩
  · rw [if_neg h1]
    have h2 : jsTrim name ≠ "" := fun hh => h1 ((blank_cond_iff name).mpr hh)
    refine ⟨by simp [h2], ?_, ?_⟩
    · rintro _ (rfl | rfl) <;> rfl
    · rintro _ c rfl hc
      simp [hc]

/-- Witness for C5: an empty color defaults, an empty name is rejected. -/
theorem Category.create_defaults_spec_witness :
    jsTrim "Food" ≠ "" ∧
    Category.create "uuid-2" "Food" none (some "") =
      .ok ⟨"uuid-2", "Food", none, "#000000"⟩ ∧
    (∃ msg, Category.create "uuid-3" "" none (some "#fff") = .error msg) :=
  ⟨by decide,
   (Category.create_defaults_spec "uuid-2" "Food" none (some "")).2.1 (by decide)
     (Or.inr rfl),
   (Category.create_defaults_spec "uuid-3" "" none (some "#fff")).1.mpr (by decide)⟩

/-- C7: for every input accepted by Expense.create, rehydrating through
Expense.fromDatabase from the serialized record of the created expense
yields an instance whose serialized output is field-for-field identical,
the amount included, to the original serialized output. -/
theorem Expense.roundTrip (freshId : String) (now : Date)
    (description : String) (amount : ℚ) (date : Date) (categoryId : String)
    (e : Expense)
    (_h : Expense.create freshId now description amount date categoryId =
      .ok e) :
    (Expense.fromDatabase e.toJSON.id e.toJSON.description e.toJSON.amount
        e.toJSON.date e.toJSON.categoryId e.toJSON.createdAt
        e.toJSON.updatedAt).toJSON = e.toJSON := by
  rfl

/-- Witness for C7 at a concrete created expense. -/
theorem Expense.roundTrip_witness :
    Expense.create "uuid-4" ⟨2025, 1, 2, 3, 4, 5, 6⟩ "Coffee" 12
        ⟨2025, 1, 1, 0, 0, 0, 0⟩ "cat-9" =
      .ok ⟨"uuid-4", "Coffee", 12, ⟨2025, 1, 1, 0, 0, 0, 0⟩, "cat-9",
           ⟨2025, 1, 2, 3, 4, 5, 6⟩, none⟩ ∧
    (Expense.fromDatabase
        (Expense.mk "uuid-4" "Coffee" 12 ⟨2025, 1, 1, 0, 0, 0, 0⟩ "cat-9"
          ⟨2025, 1, 2, 3, 4, 5, 6⟩ none).toJSON.id
        (Expense.mk "uuid-4" "Coffee" 12 ⟨2025, 1, 1, 0, 0, 0, 0⟩ "cat-9"
          ⟨2025, 1, 2, 3, 4, 5, 6⟩ none).toJSON.description
        (Expense.mk "uuid-4" "Coffee" 12 ⟨2025, 1, 1, 0, 0, 0, 0⟩ "cat-9"
          ⟨2025, 1, 2, 3, 4, 5, 6⟩ none).toJSON.amount
        (Expense.mk "uuid-4" "Coffee" 12 ⟨2025, 1, 1, 0, 0, 0, 0⟩ "cat-9"
          ⟨2025, 1, 2, 3, 4, 5, 6⟩ none).toJSON.date
        (Expense.mk "uuid-4" "Coffee" 12 ⟨2025, 1, 1, 0, 0, 0, 0⟩ "cat-9"
          ⟨2025, 1, 2, 3, 4, 5, 6⟩ none).toJSON.categoryId
        (Expense.mk "uuid-4" "Coffee" 12 ⟨2025, 1, 1, 0, 0, 0, 0⟩ "cat-9"
          ⟨2025, 1, 2, 3, 4, 5, 6⟩ none).toJSON.createdAt
        (Expense.mk "uuid-4" "Coffee" 12 ⟨2025, 1, 1, 0, 0, 0, 0⟩ "cat-9"
          ⟨2025, 1, 2, 3, 4, 5, 6⟩ none).toJSON.updatedAt).toJSON =
      (Expense.mk "uuid-4" "Coffee" 12 ⟨2025, 1, 1, 0, 0, 0, 0⟩ "cat-9"
        ⟨2025, 1, 2, 3, 4, 5, 6⟩ none).toJSON :=
  ⟨rfl,
   Expense.roundTrip "uuid-4" ⟨2025, 1, 2, 3, 4, 5, 6⟩ "Coffee" 12
     ⟨2025, 1, 1, 0, 0, 0, 0⟩ "cat-9" _ rfl⟩

/-- Equality of Except values is decidable when it is for both sides. -/
instance {ε α : Type} [DecidableEq ε] [DecidableEq α] :
    DecidableEq (Except ε α) := fun x y =>
  match x, y with
  | .error a, .error b =>
    if h : a = b then .isTrue (by rw [h])
    else .isFalse (by intro hc; injection hc; contradiction)
  | .ok a, .ok b =>
    if h : a = b then .isTrue (by rw [h])
    else .isFalse (by intro hc; injection hc; contradiction)
  | .error _, .ok _ => .isFalse (by intro hc; cases hc)
  | .ok _, .error _ => .isFalse (by intro hc; cases hc)

/-- Folding addition of a mapped value from an initial accumulator equals
the initial accumulator plus the sum of the mapped list; this is the shape
of the reduce calls of the monthly-report resolver. -/
theorem foldl_add_map {α : Type} (f : α → ℚ) (l : List α) (init : ℚ) :
    l.foldl (fun sum x => sum + f x) init = init + (l.map f).sum := by
  induction l generalizing init with
  | nil => simp
  | cons a l ih => simp [ih, add_assoc]

/-- Indexing MONTH_NAMES at month - 1 agrees with the month naming the
specification spells out, for every month in 1-12. -/
theorem month_names_getD (m : Int) (h1 : 1 ≤ m) (h2 : m ≤ 12) :
    MONTH_NAMES.getD (m - 1).toNat "" = specMonthName m := by
  interval_cases m <;> rfl

/-- C1 counterexample: the record returned by the monthly-report resolver
carries no property named monthName; the month-name value is returned
under the property named month. -/
theorem monthlyReport_monthName_key_missing :
    "monthName" ∉ MonthlyReport.jsKeys ∧ "month" ∈ MonthlyReport.jsKeys := by
  decide

/-- C1 (amended): for every month in 1-12, year, salary, additional-income
list and expense list, the monthly-report aggregation returns a record
whose totalExpenses is the sum of the supplied expense amounts, whose
netIncome is salary plus the sum of the additional-income amounts minus
totalExpenses, whose month-name value (carried by the field named month,
not monthName) is the English calendar month name, and which passes year,
salary, the additionalIncome list and the expenses list through
unmodified. -/
theorem expensesMonthlyReport_spec (month year : Int) (salary : ℚ)
    (additionalIncome : List AdditionalIncome) (expenses : List Expense)
    (h1 : 1 ≤ month) (h2 : month ≤ 12) :
    ∃ r, expensesMonthlyReport month year salary additionalIncome expenses =
        .ok r ∧
      r.totalExpenses = (expenses.map Expense.amount).sum ∧
      r.netIncome =
        (salary + (additionalIncome.map AdditionalIncome.amount).sum) -
          (expenses.map Expense.amount).sum ∧
      r.month = specMonthName month ∧
      r.year = year ∧
      r.salary = salary ∧
      r.additionalIncome = additionalIncome ∧
      r.expenses = expenses := by
  have hc : ¬(month < 1 ∨ month > 12) := by omega
  refine ⟨⟨MONTH_NAMES.getD (month - 1).toNat "", year, salary,
          additionalIncome,
          expenses.foldl (fun sum e => sum + e.amount) 0,
          (salary + additionalIncome.foldl (fun sum i => sum + i.amount) 0) -
            expenses.foldl (fun sum e => sum + e.amount) 0,
          expenses⟩, ?_, ?_, ?_, ?_, rfl, rfl, rfl, rfl⟩
  · unfold expensesMonthlyReport
    rw [if_neg hc]
  · simpa using foldl_add_map Expense.amount expenses 0
  · simp [foldl_add_map]
  · exact month_names_getD month h1 h2

/-- Witness for C1 at the worked example of the specification: March 2025,
salary 2000, one bonus of 300, expenses of 100 and 50.25. -/
theorem expensesMonthlyReport_spec_witness :
    (1 ≤ (3 : Int)) ∧ ((3 : Int) ≤ 12) ∧
    (∃ r, expensesMonthlyReport 3 2025 2000 [⟨"bonus", 300⟩]
        [⟨"e1", "groceries", 100, ⟨2025, 3, 2, 10, 0, 0, 0⟩, "c1",
          ⟨2025, 3, 2, 10, 0, 0, 0⟩, none⟩,
         ⟨"e2", "transport", 201/4, ⟨2025, 3, 9, 8, 30, 0, 0⟩, "c1",
          ⟨2025, 3, 9, 8, 30, 0, 0⟩, none⟩] = .ok r ∧
      r.totalExpenses =
        (([⟨"e1", "groceries", 100, ⟨2025, 3, 2, 10, 0, 0, 0⟩, "c1",
            ⟨2025, 3, 2, 10, 0, 0, 0⟩, none⟩,
           ⟨"e2", "transport", 201/4, ⟨2025, 3, 9, 8, 30, 0, 0⟩, "c1",
            ⟨2025, 3, 9, 8, 30, 0, 0⟩, none⟩] : List Expense).map
          Expense.amount).sum ∧
      r.netIncome =
        ((2000 : ℚ) +
            (([⟨"bonus", 300⟩] : List AdditionalIncome).map
              AdditionalIncome.amount).sum) -
          (([⟨"e1", "groceries", 100, ⟨2025, 3, 2, 10, 0, 0, 0⟩, "c1",
              ⟨2025, 3, 2, 10, 0, 0, 0⟩, none⟩,
             ⟨"e2", "transport", 201/4, ⟨2025, 3, 9, 8, 30, 0, 0⟩, "c1",
              ⟨2025, 3, 9, 8, 30, 0, 0⟩, none⟩] : List Expense).map
            Expense.amount).sum ∧
      r.month = specMonthName 3 ∧
      r.year = 2025 ∧
      r.salary = 2000 ∧
      r.additionalIncome = [⟨"bonus", 300⟩] ∧
      r.expenses =
        [⟨"e1", "groceries", 100, ⟨2025, 3, 2, 10, 0, 0, 0⟩, "c1",
          ⟨2025, 3, 2, 10, 0, 0, 0⟩, none⟩,
         ⟨"e2", "transport", 201/4, ⟨2025, 3, 9, 8, 30, 0, 0⟩, "c1",
          ⟨2025, 3, 9, 8, 30, 0, 0⟩, none⟩]) :=
  ⟨by decide, by decide,
   expensesMonthlyReport_spec 3 2025 2000 [⟨"bonus", 300⟩]
     [⟨"e1", "groceries", 100, ⟨2025, 3, 2, 10, 0, 0, 0⟩, "c1",
       ⟨2025, 3, 2, 10, 0, 0, 0⟩, none⟩,
      ⟨"e2", "transport", 201/4, ⟨2025, 3, 9, 8, 30, 0, 0⟩, "c1",
       ⟨2025, 3, 9, 8, 30, 0, 0⟩, none⟩] (by decide) (by decide)⟩

/-- C2: the monthly-report resolver fails with the month-range
ValidationError whenever the month lies outside 1-12, and produces no
report record in that case (the Except carries only the error). -/
theorem expensesMonthlyReport_invalid_month (month year : Int) (salary : ℚ)
    (additionalIncome : List AdditionalIncome) (expenses : List Expense)
    (h : month < 1 ∨ month > 12) :
    expensesMonthlyReport month year salary additionalIncome expenses =
      .error "Month must be between 1 and 12" := by
  unfold expensesMonthlyReport
  rw [if_pos h]

/-- Witness for C2 at month 0 and month 13. -/
theorem expensesMonthlyReport_invalid_month_witness :
    ((0 : Int) < 1 ∨ (0 : Int) > 12) ∧ ((13 : Int) < 1 ∨ (13 : Int) > 12) ∧
    expensesMonthlyReport 0 2025 1000 [] [] =
      .error "Month must be between 1 and 12" ∧
    expensesMonthlyReport 13 2025 1000 [] [] =
      .error "Month must be between 1 and 12" :=
  ⟨Or.inl (by decide), Or.inr (by decide),
   expensesMonthlyReport_invalid_month 0 2025 1000 [] [] (Or.inl (by decide)),
   expensesMonthlyReport_invalid_month 13 2025 1000 [] []
     (Or.inr (by decide))⟩

/-- C9: deleting a category fails whenever at least one expense still
references it, with an error message reporting the count of referencing
expenses, and in the model an error produces no new store, so the
category stays in place; when no expense references an existing category,
the deletion succeeds and removes exactly that category, leaving the
expenses table untouched. -/
theorem CategoryRepository.delete_spec (db : Db) (id : String) :
    (0 < (db.expenses.filter fun e => e.categoryId = id).length →
      CategoryRepository.delete db id =
        .error ("Cannot delete category: " ++
          toString (db.expenses.filter fun e => e.categoryId = id).length ++
          " expense(s) are associated with this category")) ∧
    ((db.expenses.filter fun e => e.categoryId = id).length = 0 →
      (∃ c ∈ db.categories, c.id = id) →
      CategoryRepository.delete db id =
        .ok ⟨db.categories.filter fun c => c.id ≠ id, db.expenses⟩) := by
  unfold CategoryRepository.delete
  constructor
  · intro h
    rw [if_pos h]
  · intro h hex
    rw [if_neg (by omega)]
    have hall : ¬(db.categories.all fun c => decide (c.id ≠ id)) = true := by
      simp only [List.all_eq_true, decide_eq_true_eq, not_forall]
      obtain ⟨c, hc, hcid⟩ := hex
      exact ⟨c, hc, by simp [hcid]⟩
    rw [if_neg hall]

/-- Witness for C9: a referenced category is blocked with the count in the
message; an unreferenced category is removed. -/
theorem CategoryRepository.delete_spec_witness :
    (0 < ((([⟨"e1", "Lunch", 10, ⟨2025, 1, 1, 0, 0, 0, 0⟩, "c1",
        ⟨2025, 1, 1, 0, 0, 0, 0⟩, none⟩] : List ExpenseRow)).filter
        fun e => e.categoryId = "c1").length) ∧
    CategoryRepository.delete
        ⟨[⟨"c1", "Food", none, "#fff"⟩],
         [⟨"e1", "Lunch", 10, ⟨2025, 1, 1, 0, 0, 0, 0⟩, "c1",
           ⟨2025, 1, 1, 0, 0, 0, 0⟩, none⟩]⟩ "c1" =
      .error "Cannot delete category: 1 expense(s) are associated with this category" ∧
    CategoryRepository.delete ⟨[⟨"c1", "Food", none, "#fff"⟩], []⟩ "c1" =
      .ok ⟨[], []⟩ := by
  refine ⟨by decide, ?_, ?_⟩
  · have h := (CategoryRepository.delete_spec
      ⟨[⟨"c1", "Food", none, "#fff"⟩],
       [⟨"e1", "Lunch", 10, ⟨2025, 1, 1, 0, 0, 0, 0⟩, "c1",
         ⟨2025, 1, 1, 0, 0, 0, 0⟩, none⟩]⟩ "c1").1 (by decide)
    exact h.trans (by decide)
  · have h := (CategoryRepository.delete_spec
      ⟨[⟨"c1", "Food", none, "#fff"⟩], []⟩ "c1").2 (by decide) (by decide)
    exact h.trans (by decide)

/-- C10: the createCategory mutation hands the raw input straight to the
repository create, which forwards it to the store: no ValidationError is
raised for an empty or whitespace-only name and no color defaulting
happens on this path, so the stored category carries exactly the input
fields (the Category.create factory with its validation and #000000
default is never involved).  The only failure is the UNIQUE constraint of
the store on the category name. -/
theorem createCategory_passthrough (db : Db) (freshId : String)
    (input : CategoryCreateInput)
    (h : ∀ c ∈ db.categories, c.name ≠ input.name) :
    createCategory db freshId input =
      .ok (⟨freshId, input.name, input.description, input.color⟩,
           ⟨db.categories ++ [⟨freshId, input.name, input.description,
              input.color⟩], db.expenses⟩) := by
  unfold createCategory CategoryRepository.create
  have hc : ¬(db.categories.any fun c => decide (c.name = input.name)) = true := by
    simp only [List.any_eq_true, decide_eq_true_eq, not_exists]
    intro c
    rw [not_and]
    exact h c
  rw [if_neg hc]
  rfl

/-- Witness for C10: an empty name and an empty color are stored
verbatim, with no rejection and no defaulting. -/
theorem createCategory_passthrough_witness :
    (∀ c ∈ ([] : List Category), c.name ≠ "") ∧
    createCategory ⟨[], []⟩ "uuid-5" ⟨"", none, ""⟩ =
      .ok (⟨"uuid-5", "", none, ""⟩, ⟨[⟨"uuid-5", "", none, ""⟩], []⟩) := by
  refine ⟨by simp, ?_⟩
  have h := createCategory_passthrough ⟨[], []⟩ "uuid-5" ⟨"", none, ""⟩
    (by simp)
  exact h.trans (by decide)

/-- A valid instant lies between the first millisecond of a month (day 1,
00:00:00.000) and the last millisecond of the month (its last day,
23:59:59.999) exactly when its civil year and month are that year and
month. -/
theorem date_in_month_range (d : Date) (year month : Int) (hv : d.Valid)
    (h1 : 1 ≤ month) (h2 : month ≤ 12) :
    ((Date.mk year month 1 0 0 0 0).key ≤ d.key ∧
      d.key ≤ (Date.mk year month (daysInMonth year month)
        23 59 59 999).key) ↔
    (d.year = year ∧ d.month = month) := by
  obtain ⟨hm1, hm2, hd1, hd2, hh1, hh2, hmi1, hmi2, hs1, hs2, hms1, hms2⟩ := hv
  have hb := daysInMonth_bounds year month
  have hb' := daysInMonth_bounds d.year d.month
  constructor
  · rintro ⟨hlo, hhi⟩
    simp only [Date.key] at hlo hhi
    omega
  · rintro ⟨hy, hm⟩
    have hd2' : d.day ≤ daysInMonth year month := by
      rw [← hy, ← hm]
      exact hd2
    simp only [Date.key]
    omega

/-- C8 counterexample: a stored expense dated 25-03-10, squarely inside
the inclusive calendar-month range of March of year 25 (from the first
millisecond of day 1 through the last millisecond of day 31), is not
returned by findByMonthAndYear(3, 25): the JS Date constructor remaps the
two-digit year 25 to 1925, so the program queries March 1925 instead of
March 25. -/
theorem findByMonthAndYear_two_digit_year_counterexample :
    ((Date.mk 25 3 1 0 0 0 0).key ≤ (Date.mk 25 3 10 12 0 0 0).key ∧
      (Date.mk 25 3 10 12 0 0 0).key ≤
        (Date.mk 25 3 (daysInMonth 25 3) 23 59 59 999).key) ∧
    (Date.mk 25 3 10 12 0 0 0).Valid ∧
    ExpenseRepository.findByMonthAndYear
      ⟨[], [⟨"e1", "tea", 5, ⟨25, 3, 10, 12, 0, 0, 0⟩, "c1",
            ⟨25, 3, 10, 12, 0, 0, 0⟩, none⟩]⟩ 3 25 = [] := by
  decide

/-- C8 (amended): for every month in 1-12 and year, findByMonthAndYear
returns exactly the stored expenses whose date falls in the inclusive
calendar month range for that month and the ECMAScript-adjusted year
(jsFullYear remaps a year argument 0-99 to 1900 + year and takes every
other year as given): first millisecond of day 1 through the last
millisecond of the last day, each row rehydrated through
Expense.fromDatabase, ordered newest date first. -/
theorem ExpenseRepository.findByMonthAndYear_spec (db : Db)
    (month year : Int) (h1 : 1 ≤ month) (h2 : month ≤ 12)
    (hv : ∀ r ∈ db.expenses, r.date.Valid) :
    (∀ ex, ex ∈ ExpenseRepository.findByMonthAndYear db month year ↔
      ∃ r ∈ db.expenses, r.date.year = jsFullYear year ∧
        r.date.month = month ∧
        ex = Expense.fromDatabase r.id r.description r.amount r.date
          r.categoryId r.createdAt r.updatedAt) ∧
    (ExpenseRepository.findByMonthAndYear db month year).Pairwise
      (fun a b => b.date.key ≤ a.date.key) := by
  constructor
  · intro ex
    unfold ExpenseRepository.findByMonthAndYear
    simp only [List.mem_map, List.mem_insertionSort, List.mem_filter,
      Bool.and_eq_true, decide_eq_true_eq]
    constructor
    · rintro ⟨r, ⟨hmem, hlo, hhi⟩, rfl⟩
      have hr := (date_in_month_range r.date (jsFullYear year) month
        (hv r hmem) h1 h2).mp ⟨hlo, hhi⟩
      exact ⟨r, hmem, hr.1, hr.2, rfl⟩
    · rintro ⟨r, hmem, hy, hm, rfl⟩
      have hr := (date_in_month_range r.date (jsFullYear year) month
        (hv r hmem) h1 h2).mpr ⟨hy, hm⟩
      exact ⟨r, ⟨hmem, hr.1, hr.2⟩, rfl⟩
  · unfold ExpenseRepository.findByMonthAndYear
    rw [List.pairwise_map]
    exact (List.sorted_insertionSort newestFirst _).imp fun h => h

/-- Witness for C8 on a store holding two March 2025 expenses and one
April 2025 expense. -/
theorem ExpenseRepository.findByMonthAndYear_spec_witness :
    (1 ≤ (3 : Int)) ∧ ((3 : Int) ≤ 12) ∧
    (∀ r ∈ (Db.mk []
        [⟨"e1", "rent", 800, ⟨2025, 3, 3, 9, 0, 0, 0⟩, "c1",
          ⟨2025, 3, 3, 9, 0, 0, 0⟩, none⟩,
         ⟨"e2", "food", 50, ⟨2025, 3, 20, 18, 30, 0, 0⟩, "c1",
          ⟨2025, 3, 20, 18, 30, 0, 0⟩, none⟩,
         ⟨"e3", "travel", 120, ⟨2025, 4, 5, 7, 0, 0, 0⟩, "c2",
          ⟨2025, 4, 5, 7, 0, 0, 0⟩, none⟩]).expenses, r.date.Valid) ∧
    ((∀ ex, ex ∈ ExpenseRepository.findByMonthAndYear (Db.mk []
        [⟨"e1", "rent", 800, ⟨2025, 3, 3, 9, 0, 0, 0⟩, "c1",
          ⟨2025, 3, 3, 9, 0, 0, 0⟩, none⟩,
         ⟨"e2", "food", 50, ⟨2025, 3, 20, 18, 30, 0, 0⟩, "c1",
          ⟨2025, 3, 20, 18, 30, 0, 0⟩, none⟩,
         ⟨"e3", "travel", 120, ⟨2025, 4, 5, 7, 0, 0, 0⟩, "c2",
          ⟨2025, 4, 5, 7, 0, 0, 0⟩, none⟩]) 3 2025 ↔
      ∃ r ∈ (Db.mk []
        [⟨"e1", "rent", 800, ⟨2025, 3, 3, 9, 0, 0, 0⟩, "c1",
          ⟨2025, 3, 3, 9, 0, 0, 0⟩, none⟩,
         ⟨"e2", "food", 50, ⟨2025, 3, 20, 18, 30, 0, 0⟩, "c1",
          ⟨2025, 3, 20, 18, 30, 0, 0⟩, none⟩,
         ⟨"e3", "travel", 120, ⟨2025, 4, 5, 7, 0, 0, 0⟩, "c2",
          ⟨2025, 4, 5, 7, 0, 0, 0⟩, none⟩]).expenses,
        r.date.year = jsFullYear 2025 ∧ r.date.month = 3 ∧
        ex = Expense.fromDatabase r.id r.description r.amount r.date
          r.categoryId r.createdAt r.updatedAt) ∧
    (ExpenseRepository.findByMonthAndYear (Db.mk []
        [⟨"e1", "rent", 800, ⟨2025, 3, 3, 9, 0, 0, 0⟩, "c1",
          ⟨2025, 3, 3, 9, 0, 0, 0⟩, none⟩,
         ⟨"e2", "food", 50, ⟨2025, 3, 20, 18, 30, 0, 0⟩, "c1",
          ⟨2025, 3, 20, 18, 30, 0, 0⟩, none⟩,
         ⟨"e3", "travel", 120, ⟨2025, 4, 5, 7, 0, 0, 0⟩, "c2",
          ⟨2025, 4, 5, 7, 0, 0, 0⟩, none⟩]) 3 2025).Pairwise
      (fun a b => b.date.key ≤ a.date.key)) :=
  ⟨by decide, by decide, by decide,
   ExpenseRepository.findByMonthAndYear_spec (Db.mk []
       [⟨"e1", "rent", 800, ⟨2025, 3, 3, 9, 0, 0, 0⟩, "c1",
         ⟨2025, 3, 3, 9, 0, 0, 0⟩, none⟩,
        ⟨"e2", "food", 50, ⟨2025, 3, 20, 18, 30, 0, 0⟩, "c1",
         ⟨2025, 3, 20, 18, 30, 0, 0⟩, none⟩,
        ⟨"e3", "travel", 120, ⟨2025, 4, 5, 7, 0, 0, 0⟩, "c2",
         ⟨2025, 4, 5, 7, 0, 0, 0⟩, none⟩]) 3 2025 (by decide) (by decide)
     (by decide)⟩
